import Mathlib

/-!
Verification of the stock-screening and SEC-fact-resolution logic of the
stockProgram repository against its specification.

The development shallowly embeds, in Lean 4:
  * the annual-data screener `screen_stocks` of `ScannAnnualData_FCF.py`
    (free-cash-flow column choice, valid-year window, positive-year counts,
    EBITDA growth / turnaround case split, pass decision);
  * the SQL screening predicate of `ScreenByEBIT_FCF_DB.py`;
  * the per-(tag, fiscal-year) best-entry selection and tag-priority
    resolution of `process_company_facts` in both
    `SEC_EDGAR_API/fetch_sec_annual_financials.py` and
    `fetch_sec_annual_financials.py`;
  * the derived free-cash-flow computation of the SEC fetcher's main loop;
  * the EBITDA extraction-with-fallback and the insufficient-data handling of
    `calculate_financial_summary` in `ScreenByEbitFCF-Gemini.py`.

Numeric values are modelled as rationals.  The only floating-point operation
the screeners perform, the fractional power `base ** (1 / num_periods)` used
for the compound growth rate, is abstracted as an explicit parameter
`rpow : ℚ → ℚ → ℚ` of the growth computation, so every theorem about the
growth case split holds for an arbitrary power function; everything else is
embedded exactly.
-/

namespace StockProgram

/-! ## Annual-data screener (`ScannAnnualData_FCF.py`) -/

/-- Configuration constant `SCREENING_YEARS = 5` of `ScannAnnualData_FCF.py`. -/
def SCREENING_YEARS : Nat := 5

/-- Configuration constant `MIN_DATA_YEARS_REQUIRED = 5`. -/
def MIN_DATA_YEARS_REQUIRED : Nat := 5

/-- Configuration constant `MIN_POSITIVE_EBITDA_YEARS = 4`. -/
def MIN_POSITIVE_EBITDA_YEARS : Nat := 4

/-- Configuration constant `MIN_POSITIVE_FCF_YEARS = 3`. -/
def MIN_POSITIVE_FCF_YEARS : Nat := 3

/-- Configuration constant `MIN_EBITDA_GROWTH_PERCENT = 15.0`. -/
def MIN_EBITDA_GROWTH_PERCENT : ℚ := 15

/-- One row of the `stock_annual_financials` table as fetched by
`fetch_screening_data` (one ticker, one year); `none` models SQL NULL /
pandas NaN after `pd.to_numeric(errors=coerce)`. -/
structure AnnualRow where
  year : Int
  ebitda : Option ℚ
  operating_cash_flow : Option ℚ
  capital_expenditure : Option ℚ
  free_cash_flow : Option ℚ
deriving Repr, DecidableEq

/-- Number of rows of a ticker's group whose stored `free_cash_flow` is null
(`group_df[free_cash_flow].isnull()`). -/
def countNullFcf (rows : List AnnualRow) : Nat :=
  (rows.filter (fun r => r.free_cash_flow.isNone)).length

/-- `screen_stocks` line 123: recompute FCF for the whole ticker iff the
stored column's null fraction exceeds one half
(`group_df[free_cash_flow].isnull().mean() > 0.5`), written with the
fraction cross-multiplied.  (The `not in columns` disjunct is vacuous: the
SQL query of `fetch_screening_data` always selects the column.) -/
def use_calculated_fcf (rows : List AnnualRow) : Bool :=
  rows.length < 2 * countNullFcf rows

/-- `screen_stocks` line 127:
`fcf_calculated = operating_cash_flow + capital_expenditure.fillna(0)`.
A null capital expenditure is replaced by 0; a null operating cash flow
propagates (NaN + x = NaN). -/
def fcf_calculated (r : AnnualRow) : Option ℚ :=
  match r.operating_cash_flow with
  | none => none
  | some ocf => some (ocf + r.capital_expenditure.getD 0)

/-- The FCF value of row `r` used by the screening checks: `fcf_calculated`
when the whole-ticker switch `use_calculated_fcf` is on, the stored
`free_cash_flow` column otherwise (`fcf_col_to_use`, line 133). -/
def fcfUsed (rows : List AnnualRow) (r : AnnualRow) : Option ℚ :=
  if use_calculated_fcf rows then fcf_calculated r else r.free_cash_flow

/-- `tail(n)` of pandas: the last `n` elements of a list. -/
def tailN (n : Nat) (l : List α) : List α :=
  l.drop (l.length - n)

/-- `valid_years_df = group_df.dropna(subset=[ebitda, fcf_col]).tail(SCREENING_YEARS)`
(line 138): keep the rows where both EBITDA and the used FCF column are
non-null, as (ebitda, fcf) pairs in ascending year order, then take the last
`SCREENING_YEARS` of them. -/
def validWindow (rows : List AnnualRow) : List (ℚ × ℚ) :=
  tailN SCREENING_YEARS
    (rows.filterMap (fun r =>
      match r.ebitda, fcfUsed rows r with
      | some e, some f => some (e, f)
      | _, _ => none))

/-- The EBITDA growth computation of `screen_stocks` lines 159-183 on the
EBITDA series of the valid window (ascending by year), returning
`(ebitda_cagr, is_turnaround)`.  `rpow` abstracts the floating-point power
`base ** (1 / num_periods)`. -/
def computeGrowth (rpow : ℚ → ℚ → ℚ) (window : List ℚ) : Option ℚ × Bool :=
  if 2 ≤ window.length then
    match window.head?, window.getLast? with
    | some earliest, some latest =>
      let num_periods : ℚ := (window.length : ℚ) - 1
      if earliest ≤ 0 then
        if 0 < latest then (none, true) else (none, false)
      else if latest ≤ 0 then (none, false)
      else
        if 0 < earliest then
          let base := latest / earliest
          if 0 < base then (some ((rpow base (1 / num_periods) - 1) * 100), false)
          else (none, false)
        else (none, false)
    | _, _ => (none, false)
  else (none, false)

/-- The record appended to `passed_screening` for a passing ticker
(`screen_stocks` lines 201-209, financial fields only). -/
structure PassRecord where
  positive_ebitda_years : Nat
  positive_fcf_years : Nat
  ebitda_cagr_percent : Option ℚ
  is_ebitda_turnaround : Bool
  years_analyzed : Nat
deriving Repr, DecidableEq

/-- The body of `screen_stocks` for one ticker's group of rows (ascending by
year): `none` when the ticker is skipped (insufficient data) or fails a
criterion — it is then absent from the returned list — and `some record`
when it passes all criteria. -/
def screenTicker (rpow : ℚ → ℚ → ℚ) (rows : List AnnualRow) : Option PassRecord :=
  let valid := validWindow rows
  if valid.length < MIN_DATA_YEARS_REQUIRED then none
  else
    let positive_ebitda_count := (valid.filter (fun p => 0 < p.1)).length
    if positive_ebitda_count < MIN_POSITIVE_EBITDA_YEARS then none
    else
      let positive_fcf_count := (valid.filter (fun p => 0 < p.2)).length
      if positive_fcf_count < MIN_POSITIVE_FCF_YEARS then none
      else
        let g := computeGrowth rpow (valid.map Prod.fst)
        let growth_passed :=
          g.2 || (match g.1 with
                  | some c => decide (MIN_EBITDA_GROWTH_PERCENT ≤ c)
                  | none => false)
        if growth_passed then
          some { positive_ebitda_years := positive_ebitda_count
                 positive_fcf_years := positive_fcf_count
                 ebitda_cagr_percent := g.1
                 is_ebitda_turnaround := g.2
                 years_analyzed := valid.length }
        else none

/-- `screen_stocks` over the grouped data: one (ticker, rows) group per
ticker; the returned list holds exactly the tickers that passed. -/
def screen_stocks (rpow : ℚ → ℚ → ℚ) (groups : List (String × List AnnualRow)) :
    List (String × PassRecord) :=
  groups.filterMap (fun g => (screenTicker rpow g.2).map (fun rec => (g.1, rec)))

/-! ## SQL screening predicate (`ScreenByEBIT_FCF_DB.py`) -/

/-- Configuration constants of `ScreenByEBIT_FCF_DB.py`. -/
def DB_YEARS_HISTORY_FILTER : Nat := 5

/-- `MIN_POSITIVE_EBITDA_YEARS = 3` in `ScreenByEBIT_FCF_DB.py`. -/
def DB_MIN_POSITIVE_EBITDA_YEARS : Nat := 3

/-- `MIN_POSITIVE_FCF_YEARS = 3` in `ScreenByEBIT_FCF_DB.py`. -/
def DB_MIN_POSITIVE_FCF_YEARS : Nat := 3

/-- `MIN_EBITDA_GROWTH_PERCENT = 15.0` in `ScreenByEBIT_FCF_DB.py`. -/
def DB_MIN_EBITDA_GROWTH_PERCENT : ℚ := 15

/-- One row of the `stock_financial_summary` table as read by
`screen_stocks_from_db`. -/
structure SummaryRow where
  data_fetch_error : Bool
  data_period_years : Nat
  positive_ebitda_years_count : Nat
  positive_fcf_years_count : Nat
  ebitda_cagr_percent : Option ℚ
  is_ebitda_turnaround : Bool
deriving Repr, DecidableEq

/-- The WHERE clause of the screening query of `screen_stocks_from_db`:
a summary row is returned iff it satisfies this predicate. -/
def screen_stocks_from_db_pred (r : SummaryRow) : Bool :=
  (!r.data_fetch_error)
    && decide (r.data_period_years = DB_YEARS_HISTORY_FILTER)
    && decide (DB_MIN_POSITIVE_EBITDA_YEARS ≤ r.positive_ebitda_years_count)
    && decide (DB_MIN_POSITIVE_FCF_YEARS ≤ r.positive_fcf_years_count)
    && (r.is_ebitda_turnaround
        || (match r.ebitda_cagr_percent with
            | some c => decide (DB_MIN_EBITDA_GROWTH_PERCENT ≤ c)
            | none => false))

/-! ## SEC fact resolution (`process_company_facts`)

Two variants are embedded: `considerEntry` follows
`SEC_EDGAR_API/fetch_sec_annual_financials.py` (lines 308-351), where both
10-K and 20-F count as annual-report forms, and `considerEntryRoot` follows
`fetch_sec_annual_financials.py` (lines 316-346), where only 10-K has form
priority.  A fact entry's `filed` date is modelled as an ordinal `Option Int`
(`none` = `parse_date` failure) and its `val` as the result of
`safe_decimal` / `safe_int_or_bigint` (`none` = parse failure). -/

/-- One data point of a tag's unit list, with dates and value already put
through `parse_date` / `safe_decimal`. -/
structure FactEntry where
  form : Option String
  fp : Option String
  fy : Option Int
  filed : Option Int
  val : Option ℚ
deriving Repr, DecidableEq

/-- Python truthiness of `entry.get(form)`: present and non-empty. -/
def formTruthy : Option String → Bool
  | some s => !s.isEmpty
  | none => false

/-- `form in (10-K, 20-F)`: the canonical annual-report forms. -/
def isAnnualReport (form : Option String) : Bool :=
  form == some "10-K" || form == some "20-F"

/-- The per-year best entry kept in `yearly_data_for_tag`: a successfully
parsed value together with the filing date and form it came from. -/
structure Best where
  val : ℚ
  filed_date : Int
  form : Option String
deriving Repr, DecidableEq

/-- Dictionary update `yearly_data_for_tag[fy] = b` on an association list
keyed by fiscal year. -/
def updateYear (m : List (Int × Best)) (fy : Int) (b : Best) : List (Int × Best) :=
  match m with
  | [] => [(fy, b)]
  | p :: rest => if p.1 = fy then (fy, b) :: rest else p :: updateYear rest fy b

/-- Dictionary lookup `yearly_data_for_tag.get(fy)`. -/
def lookupYear (m : List (Int × Best)) (fy : Int) : Option Best :=
  match m with
  | [] => none
  | p :: rest => if p.1 = fy then some p.2 else lookupYear rest fy

/-- One iteration of the entry loop of the SEC_EDGAR_API variant: keep only
FY entries with a form, a fiscal year and a parseable filed date; an entry
beats the current best for its year iff it is an annual-report form and the
current best is not, or both are in the same form class and it was filed
strictly later; a better candidate is stored only if its value parses. -/
def considerEntry (m : List (Int × Best)) (e : FactEntry) : List (Int × Best) :=
  if formTruthy e.form && (e.fp == some "FY") && e.fy.isSome then
    match e.fy, e.filed with
    | some fy, some filed =>
      let is_better :=
        match lookupYear m fy with
        | none => true
        | some cur =>
          if isAnnualReport e.form && !isAnnualReport cur.form then true
          else if isAnnualReport e.form == isAnnualReport cur.form then
            decide (cur.filed_date < filed)
          else false
      if is_better then
        match e.val with
        | some v => updateYear m fy ⟨v, filed, e.form⟩
        | none => m
      else m
    | _, _ => m
  else m

/-- One iteration of the entry loop of the top-level
`fetch_sec_annual_financials.py` variant: only 10-K has form priority
(Rule 1); Rule 2 compares filed dates when the forms are equal or neither
is a 10-K. -/
def considerEntryRoot (m : List (Int × Best)) (e : FactEntry) : List (Int × Best) :=
  if formTruthy e.form && (e.fp == some "FY") && e.fy.isSome then
    match e.fy, e.filed with
    | some fy, some filed =>
      let is_better :=
        match lookupYear m fy with
        | none => true
        | some cur =>
          if (e.form == some "10-K") && !(cur.form == some "10-K") then true
          else if (e.form == cur.form)
                  || (!(e.form == some "10-K") && !(cur.form == some "10-K")) then
            decide (cur.filed_date < filed)
          else false
      if is_better then
        match e.val with
        | some v => updateYear m fy ⟨v, filed, e.form⟩
        | none => m
      else m
    | _, _ => m
  else m

/-- The full entry loop of the SEC_EDGAR_API variant over a tag's unit data,
building `yearly_data_for_tag`. -/
def processEntries (entries : List FactEntry) : List (Int × Best) :=
  entries.foldl considerEntry []

/-- The full entry loop of the top-level variant. -/
def processEntriesRoot (entries : List FactEntry) : List (Int × Best) :=
  entries.foldl considerEntryRoot []

/-- Tag-priority scan of `process_company_facts` (lines 250-264 of the
SEC_EDGAR_API variant): try each candidate tag in order and stop at the
first one present in the entity's facts.  The `taxonomy:tag_name` pair is
modelled as a single string key of the facts dictionary. -/
def findTag (facts : List (String × List FactEntry)) :
    List String → Option (String × List FactEntry)
  | [] => none
  | t :: rest =>
    match facts.find? (fun p => p.1 == t) with
    | some p => some p
    | none => findTag facts rest

/-- Resolution of one concept for one entity: the first present candidate
tag together with the per-year best entries extracted from that tag's data
alone. -/
def resolveConcept (facts : List (String × List FactEntry)) (tags : List String) :
    Option (String × List (Int × Best)) :=
  (findTag facts tags).map (fun p => (p.1, processEntries p.2))

/-! ## Per-period fact finding (`EDGAR_Tool/edgar_financial_importer.py`)

`find_edgar_py_fact` (lines 134-167) resolves one concept for ONE filing
period: it scans the candidate tags in priority order, but — unlike
`process_company_facts` — it does not stop at the first tag present in the
facts dict: when a present tag has no fact whose date matches the requested
period end date, or none of its matching facts yields a usable value, the
outer loop falls through to the next, lower-priority tag. -/

/-- One fact of the edgar-py facts dict: optional `end_date` and `instant`
date strings and the value, with `none` modelling a missing value, an empty
cleaned string or a failed `Decimal` conversion (all of which make the loop
continue). -/
structure EdgarFact where
  end_date : Option String
  instant : Option String
  value : Option ℚ
deriving Repr, DecidableEq

/-- `fact_data.get(end_date) or fact_data.get(instant)`: Python `or`
falls back on a missing or empty `end_date`. -/
def factDate (f : EdgarFact) : Option String :=
  match f.end_date with
  | some s => if s.isEmpty then f.instant else some s
  | none => f.instant

/-- The inner loop of `find_edgar_py_fact` over one tag's fact list: return
the first date-matching fact whose value is usable; an unusable value
continues with the next fact. -/
def findFactInList (fact_list : List EdgarFact) (period_end_date : String) : Option ℚ :=
  match fact_list with
  | [] => none
  | f :: rest =>
    if factDate f == some period_end_date then
      match f.value with
      | some v => some v
      | none => findFactInList rest period_end_date
    else findFactInList rest period_end_date

/-- The outer loop of `find_edgar_py_fact` over the candidate tags: a tag
absent from the facts dict is skipped, and a present tag whose fact list
yields nothing for the period also falls through to the next tag. -/
def findFactTags (facts_dict : List (String × List EdgarFact))
    (tags : List String) (period_end_date : String) : Option ℚ :=
  match tags with
  | [] => none
  | tag :: rest =>
    match facts_dict.find? (fun p => p.1 == tag) with
    | some p =>
      match findFactInList p.2 period_end_date with
      | some v => some v
      | none => findFactTags facts_dict rest period_end_date
    | none => findFactTags facts_dict rest period_end_date

/-- `find_edgar_py_fact`: the guard clause (`not facts_dict or not tags or
not period_end_date_str`) followed by the tag scan. -/
def find_edgar_py_fact (facts_dict : List (String × List EdgarFact))
    (tags : List String) (period_end_date : String) : Option ℚ :=
  if facts_dict.isEmpty || tags.isEmpty || period_end_date.isEmpty then none
  else findFactTags facts_dict tags period_end_date

/-! ## Derived free cash flow (SEC fetcher main loop) -/

/-- `calculated_free_cash_flow` of the SEC_EDGAR_API fetcher's merging loop
(lines 526-529): `ocf - capex if ocf is not None and capex is not None else
None`.  Capital expenditure is resolved from
`PaymentsToAcquirePropertyPlantAndEquipment`, a positive payment amount,
hence the subtraction. -/
def calculated_free_cash_flow (ocf capex : Option ℚ) : Option ℚ :=
  match ocf, capex with
  | some o, some c => some (o - c)
  | _, _ => none

/-! ## EBITDA extraction and summary (`ScreenByEbitFCF-Gemini.py`) -/

/-- `YEARS_HISTORY = 5` in `ScreenByEbitFCF-Gemini.py`. -/
def YEARS_HISTORY : Nat := 5

/-- A pandas Series indexed by year: an index set and a value per year,
`none` modelling NaN.  Values outside the index are irrelevant and read
through `seriesAt`. -/
structure YSeries where
  idx : List Int
  val : Int → Option ℚ

/-- Reading a series at a year: its value when the year is in the index. -/
def seriesAt (s : YSeries) (y : Int) : Option ℚ :=
  if s.idx.contains y then s.val y else none

/-- `Series.fillna(0)`: NaN values become 0, the index is unchanged. -/
def fillna0 (s : YSeries) : YSeries :=
  ⟨s.idx, fun y => some ((s.val y).getD 0)⟩

/-- The financial statements of one ticker as seen by the EBITDA extraction
of `calculate_financial_summary` (lines 224-244): the series under a direct
EBITDA row label when one exists, and the operating-income and
depreciation-and-amortization series when their row labels exist. -/
structure GeminiStatements where
  ebitda_direct : Option YSeries
  op_income : Option YSeries
  dep_amort : Option YSeries

/-- EBITDA extraction with fallback: use the direct EBITDA series when its
row label exists; otherwise, when both an operating-income and a D&A label
exist, take `op_income.fillna(0) + dep_amort.fillna(0)` over the common
index (None when the common index is empty); otherwise None. -/
def extract_ebitda (s : GeminiStatements) : Option YSeries :=
  match s.ebitda_direct with
  | some e => some e
  | none =>
    match s.op_income, s.dep_amort with
    | some op, some da =>
      let op0 := fillna0 op
      let da0 := fillna0 da
      let common := op.idx.filter (fun y => da.idx.contains y)
      if common.isEmpty then none
      else
        some ⟨common, fun y =>
          match op0.val y, da0.val y with
          | some a, some b => some (a + b)
          | _, _ => none⟩
    | _, _ => none

/-- The extracted EBITDA value for one year: the value of the extracted
series at that year, `none` when no series could be extracted or the year
is outside its index. -/
def ebitdaAt (s : GeminiStatements) (y : Int) : Option ℚ :=
  (extract_ebitda s).bind (fun es => seriesAt es y)

/-- The fields of the per-ticker summary dict of
`calculate_financial_summary` that the screening logic populates. -/
structure GeminiSummary where
  positive_ebitda_years_count : Option Nat
  positive_fcf_years_count : Option Nat
  ebitda_cagr_percent : Option ℚ
  is_ebitda_turnaround : Option Bool
  data_fetch_error : Bool
  last_error_message : Option String
deriving Repr, DecidableEq

/-- The summary dict as initialized at the top of
`calculate_financial_summary` (analysis fields only). -/
def initialSummary : GeminiSummary :=
  { positive_ebitda_years_count := none
    positive_fcf_years_count := none
    ebitda_cagr_percent := none
    is_ebitda_turnaround := none
    data_fetch_error := true
    last_error_message := some "Process started" }

/-- The insufficient-data message of `calculate_financial_summary`
(line 286). -/
def insufficientMessage (n : Nat) : String :=
  "Insufficient valid data points after cleaning (" ++ toString n
    ++ " years < " ++ toString YEARS_HISTORY ++ " required)."

/-- `calculate_financial_summary` from the cleaned, year-ascending
(EBITDA, FCF) pairs (`combined_df` after `dropna`, lines 285-354): with
fewer than `YEARS_HISTORY` pairs the summary is returned early with only
the insufficient-data message set; otherwise the last `YEARS_HISTORY` pairs
are analyzed, with the same sign case split as the annual screener and
`num_periods = YEARS_HISTORY - 1`. -/
def calcSummaryFromCombined (rpow : ℚ → ℚ → ℚ) (combined : List (ℚ × ℚ)) :
    GeminiSummary :=
  if combined.length < YEARS_HISTORY then
    { initialSummary with last_error_message := some (insufficientMessage combined.length) }
  else
    let final := tailN YEARS_HISTORY combined
    let posE := (final.filter (fun p => 0 < p.1)).length
    let posF := (final.filter (fun p => 0 < p.2)).length
    let earliest := (final.headD (0, 0)).1
    let latest := (final.getLastD (0, 0)).1
    let num_periods : ℚ := (YEARS_HISTORY : ℚ) - 1
    let g : Option ℚ × Bool :=
      if earliest ≤ 0 then
        if 0 < latest then (none, true) else (none, false)
      else if latest ≤ 0 then (none, false)
      else
        if 0 < earliest && 0 < latest then
          (some ((rpow (latest / earliest) (1 / num_periods) - 1) * 100), false)
        else (none, false)
    { positive_ebitda_years_count := some posE
      positive_fcf_years_count := some posF
      ebitda_cagr_percent := g.1
      is_ebitda_turnaround := some g.2
      data_fetch_error := false
      last_error_message := none }

/-! ## Sample data for concrete instantiations -/

/-- A constant function standing in for the floating-point power operation,
used to instantiate the abstract `rpow` parameter in concrete evaluations. -/
def powZero : ℚ → ℚ → ℚ := fun _ _ => 0

/-- Five years of sample annual data with positive EBITDA and a fully
populated stored free-cash-flow column. -/
def sampleRows : List AnnualRow :=
  [⟨2018, some 10, some 5, some (-1), some 2⟩,
   ⟨2019, some 12, some 5, some (-1), some 2⟩,
   ⟨2020, some 14, some 5, some (-1), some 2⟩,
   ⟨2021, some 16, some 5, some (-1), some 2⟩,
   ⟨2022, some 20, some 5, some (-1), some 2⟩]

/-- Three years of sample annual data in which two of the three stored
free-cash-flow values are null. -/
def sampleNullRows : List AnnualRow :=
  [⟨2020, some 1, some 5, some (-1), none⟩,
   ⟨2021, some 2, some 5, some (-1), none⟩,
   ⟨2022, some 3, some 5, some (-1), some 2⟩]

/-- A fiscal-year 2020 fact entry with the given form, filed date and
value. -/
def sampleEntry (form : String) (d : Int) (v : ℚ) : FactEntry :=
  ⟨some form, some "FY", some 2020, some d, some v⟩

/-! ## Helper lemmas -/

/-- The `growth_passed` test of `screen_stocks` lines 188-192, as a
proposition: the turnaround flag is set, or a computed CAGR meets the
threshold. -/
theorem growth_passed_iff (g : Option ℚ × Bool) :
    (g.2 || (match g.1 with
             | some c => decide (MIN_EBITDA_GROWTH_PERCENT ≤ c)
             | none => false)) = true
      ↔ (g.2 = true ∨ ∃ c, g.1 = some c ∧ MIN_EBITDA_GROWTH_PERCENT ≤ c) := by
  obtain ⟨c, t⟩ := g
  cases c <;> cases t <;> simp

/-- Looking a year up in an updated association map: the written binding at
the written key, the old map elsewhere. -/
theorem lookupYear_updateYear (m : List (Int × Best)) (fy : Int) (b : Best) (y : Int) :
    lookupYear (updateYear m fy b) y = if fy = y then some b else lookupYear m y := by
  induction m with
  | nil => simp [updateYear, lookupYear]
  | cons p rest ih =>
    by_cases hp : p.1 = fy
    · by_cases hy : fy = y <;>
        simp_all [updateYear, lookupYear]
    · by_cases hy : p.1 = y <;>
        by_cases hfy : fy = y <;>
        simp_all [updateYear, lookupYear]

/-- A binding visible after one step of the SEC_EDGAR_API entry loop was
either already present or was written from the entry just processed. -/
theorem considerEntry_lookup (m : List (Int × Best)) (e : FactEntry) (y : Int) (b : Best)
    (h : lookupYear (considerEntry m e) y = some b) :
    lookupYear m y = some b ∨
      (e.val = some b.val ∧ e.fy = some y ∧ e.filed = some b.filed_date ∧ e.form = b.form) := by
  simp only [considerEntry] at h
  split at h
  · split at h
    · split at h
      · split at h
        · rw [lookupYear_updateYear] at h
          split at h
          · rename_i hy
            right
            injection h with h
            subst h
            subst hy
            simp_all
          · left; exact h
        · left; exact h
      · left; exact h
    · left; exact h
  · left; exact h

/-- A binding visible after one step of the top-level fetcher's entry loop
was either already present or was written from the entry just processed. -/
theorem considerEntryRoot_lookup (m : List (Int × Best)) (e : FactEntry) (y : Int) (b : Best)
    (h : lookupYear (considerEntryRoot m e) y = some b) :
    lookupYear m y = some b ∨
      (e.val = some b.val ∧ e.fy = some y ∧ e.filed = some b.filed_date ∧ e.form = b.form) := by
  simp only [considerEntryRoot] at h
  split at h
  · split at h
    · split at h
      · split at h
        · rw [lookupYear_updateYear] at h
          split at h
          · rename_i hy
            right
            injection h with h
            subst h
            subst hy
            simp_all
          · left; exact h
        · left; exact h
      · left; exact h
    · left; exact h
  · left; exact h

/-- Every binding produced by the SEC_EDGAR_API entry loop originates from
some input entry: its value, year, filed date and form are that entry's. -/
theorem lookup_foldl_origin (entries : List FactEntry) (m : List (Int × Best))
    (y : Int) (b : Best)
    (h : lookupYear (entries.foldl considerEntry m) y = some b) :
    lookupYear m y = some b ∨
      ∃ e ∈ entries, e.val = some b.val ∧ e.fy = some y ∧
        e.filed = some b.filed_date ∧ e.form = b.form := by
  induction entries generalizing m with
  | nil => left; exact h
  | cons e rest ih =>
    rcases ih (considerEntry m e) h with h1 | h2
    · rcases considerEntry_lookup m e y b h1 with h3 | h4
      · left; exact h3
      · right; exact ⟨e, by simp, h4⟩
    · right
      obtain ⟨e2, he2, hp⟩ := h2
      exact ⟨e2, by simp [he2], hp⟩

/-- Every binding produced by the top-level fetcher's entry loop originates
from some input entry. -/
theorem lookup_foldl_origin_root (entries : List FactEntry) (m : List (Int × Best))
    (y : Int) (b : Best)
    (h : lookupYear (entries.foldl considerEntryRoot m) y = some b) :
    lookupYear m y = some b ∨
      ∃ e ∈ entries, e.val = some b.val ∧ e.fy = some y ∧
        e.filed = some b.filed_date ∧ e.form = b.form := by
  induction entries generalizing m with
  | nil => left; exact h
  | cons e rest ih =>
    rcases ih (considerEntryRoot m e) h with h1 | h2
    · rcases considerEntryRoot_lookup m e y b h1 with h3 | h4
      · left; exact h3
      · right; exact ⟨e, by simp, h4⟩
    · right
      obtain ⟨e2, he2, hp⟩ := h2
      exact ⟨e2, by simp [he2], hp⟩

/-- The tag found by the priority scan is present in the facts, and every
candidate tag before it is absent. -/
theorem findTag_spec (facts : List (String × List FactEntry)) (tags : List String)
    (t : String) (es : List FactEntry) (h : findTag facts tags = some (t, es)) :
    facts.find? (fun p => p.1 == t) = some (t, es) ∧
    ∃ pre post, tags = pre ++ t :: post ∧
      ∀ t2 ∈ pre, facts.find? (fun p => p.1 == t2) = none := by
  induction tags with
  | nil => simp [findTag] at h
  | cons t0 rest ih =>
    rw [findTag] at h
    cases hf : facts.find? (fun p => p.1 == t0) with
    | some p =>
      rw [hf] at h
      injection h with h
      subst h
      have hkey : t = t0 := by
        have := List.find?_some hf
        simpa using this
      subst hkey
      exact ⟨hf, [], rest, by simp, by simp⟩
    | none =>
      rw [hf] at h
      obtain ⟨h1, pre, post, hpp, hnone⟩ := ih h
      refine ⟨h1, t0 :: pre, post, by simp [hpp], ?_⟩
      intro t2 ht2
      rcases List.mem_cons.mp ht2 with rfl | ht2
      · exact hf
      · exact hnone t2 ht2

/-- An entry whose value fails numeric parsing leaves the per-year map of
either entry loop untouched. -/
theorem considerEntry_parse_failure (m : List (Int × Best)) (e : FactEntry)
    (hval : e.val = none) : considerEntry m e = m ∧ considerEntryRoot m e = m := by
  constructor
  · simp only [considerEntry, hval]
    split
    · split
      · split <;> rfl
      · rfl
    · rfl
  · simp only [considerEntryRoot, hval]
    split
    · split
      · split <;> rfl
      · rfl
    · rfl

/-! ## Claim theorems -/

/-- C1: for every growth-concept window of N ≥ 2 records ordered ascending
by fiscal year, the growth handling of `screen_stocks` is an exhaustive
case split on the signs of the first and last window values: first ≤ 0 and
last > 0 gives turnaround with no CAGR; first ≤ 0 and last ≤ 0, or
first > 0 and last ≤ 0, give neither; first > 0 and last > 0 gives no
turnaround and CAGR = ((last/first)^(1/(N-1)) − 1) · 100.  A growth rate is
never computed from a non-positive first value, and turnaround requires a
strictly positive last value. -/
theorem growth_case_split (rpow : ℚ → ℚ → ℚ) (window : List ℚ) (f l : ℚ)
    (hlen : 2 ≤ window.length) (hf : window.head? = some f)
    (hl : window.getLast? = some l) :
    (f ≤ 0 → 0 < l → computeGrowth rpow window = (none, true)) ∧
    (f ≤ 0 → l ≤ 0 → computeGrowth rpow window = (none, false)) ∧
    (0 < f → l ≤ 0 → computeGrowth rpow window = (none, false)) ∧
    (0 < f → 0 < l →
      computeGrowth rpow window =
        (some ((rpow (l / f) (1 / ((window.length : ℚ) - 1)) - 1) * 100), false)) := by
  refine ⟨?_, ?_, ?_, ?_⟩ <;> intro h1 h2 <;>
    simp only [computeGrowth, hf, hl, if_pos hlen]
  · rw [if_pos h1, if_pos h2]
  · rw [if_pos h1, if_neg (not_lt.mpr h2)]
  · rw [if_neg (not_le.mpr h1), if_pos h2]
  · rw [if_neg (not_le.mpr h1), if_neg (not_le.mpr h2), if_pos h1,
      if_pos (div_pos h2 h1)]

/-- Witness for C1: the growth case split instantiated on the spec's
example window [-5, -2, 3]. -/
theorem growth_case_split_witness :
    ((-5 : ℚ) ≤ 0 → (0 : ℚ) < 3 → computeGrowth powZero [-5, -2, 3] = (none, true)) ∧
    ((-5 : ℚ) ≤ 0 → (3 : ℚ) ≤ 0 → computeGrowth powZero [-5, -2, 3] = (none, false)) ∧
    ((0 : ℚ) < -5 → (3 : ℚ) ≤ 0 → computeGrowth powZero [-5, -2, 3] = (none, false)) ∧
    ((0 : ℚ) < -5 → (0 : ℚ) < 3 →
      computeGrowth powZero [-5, -2, 3] =
        (some ((powZero ((3 : ℚ) / (-5))
            (1 / ((([-5, -2, 3] : List ℚ).length : ℚ) - 1)) - 1) * 100),
         false)) :=
  growth_case_split powZero [-5, -2, 3] (-5) 3 (by decide) (by decide) (by decide)

/-- C2: for every ticker with at least the required number of qualifying
years, `screen_stocks` passes it iff both positive-year minimums are met
and either the turnaround flag is set or the computed CAGR is defined and
meets the threshold; the WHERE clause of `screen_stocks_from_db` selects a
summary row under the same conjunction. -/
theorem screening_verdict_iff (rpow : ℚ → ℚ → ℚ) (rows : List AnnualRow)
    (h : MIN_DATA_YEARS_REQUIRED ≤ (validWindow rows).length) :
    ((screenTicker rpow rows).isSome = true ↔
      (MIN_POSITIVE_EBITDA_YEARS ≤ ((validWindow rows).filter (fun p => 0 < p.1)).length ∧
       MIN_POSITIVE_FCF_YEARS ≤ ((validWindow rows).filter (fun p => 0 < p.2)).length ∧
       ((computeGrowth rpow ((validWindow rows).map Prod.fst)).2 = true ∨
        ∃ c, (computeGrowth rpow ((validWindow rows).map Prod.fst)).1 = some c ∧
             MIN_EBITDA_GROWTH_PERCENT ≤ c))) ∧
    ∀ r : SummaryRow, r.data_fetch_error = false →
      r.data_period_years = DB_YEARS_HISTORY_FILTER →
      (screen_stocks_from_db_pred r = true ↔
        (DB_MIN_POSITIVE_EBITDA_YEARS ≤ r.positive_ebitda_years_count ∧
         DB_MIN_POSITIVE_FCF_YEARS ≤ r.positive_fcf_years_count ∧
         (r.is_ebitda_turnaround = true ∨
          ∃ c, r.ebitda_cagr_percent = some c ∧ DB_MIN_EBITDA_GROWTH_PERCENT ≤ c))) := by
  constructor
  · simp only [screenTicker, if_neg (not_lt.mpr h)]
    split_ifs with h1 h2 h3
    · simp [not_le.mpr h1]
    · simp [not_le.mpr h2, not_lt.mp h1]
    · rw [growth_passed_iff] at h3
      simp [not_lt.mp h1, not_lt.mp h2, h3]
    · rw [growth_passed_iff] at h3
      simp only [Option.isSome_none, Bool.false_eq_true, false_iff]
      intro hc
      exact h3 hc.2.2
  · intro r he hp
    obtain ⟨fe, py, pe, pf, cagr, turn⟩ := r
    simp only at he hp
    subst he hp
    cases cagr <;> cases turn <;>
      simp [screen_stocks_from_db_pred, and_assoc, DB_MIN_EBITDA_GROWTH_PERCENT]

/-- Witness for C2: the pass-iff equivalence instantiated on five years of
sample data. -/
theorem screening_verdict_iff_witness :
    MIN_DATA_YEARS_REQUIRED ≤ (validWindow sampleRows).length ∧
    ((screenTicker powZero sampleRows).isSome = true ↔
      (MIN_POSITIVE_EBITDA_YEARS ≤
         ((validWindow sampleRows).filter (fun p => 0 < p.1)).length ∧
       MIN_POSITIVE_FCF_YEARS ≤
         ((validWindow sampleRows).filter (fun p => 0 < p.2)).length ∧
       ((computeGrowth powZero ((validWindow sampleRows).map Prod.fst)).2 = true ∨
        ∃ c, (computeGrowth powZero ((validWindow sampleRows).map Prod.fst)).1 = some c ∧
             MIN_EBITDA_GROWTH_PERCENT ≤ c))) :=
  ⟨by decide, (screening_verdict_iff powZero sampleRows (by decide)).1⟩

/-- C10: the choice between the stored free-cash-flow column and a
recomputed one is made once per ticker: the stored column is used iff at
most half of the ticker's rows have a null `free_cash_flow`; otherwise every
row's FCF — including rows with a stored value — is recomputed as
`operating_cash_flow + capital_expenditure` with a null capital expenditure
replaced by 0 (and a null operating cash flow propagating). -/
theorem fcf_column_choice (rows : List AnnualRow) (r : AnnualRow) :
    (2 * countNullFcf rows ≤ rows.length → fcfUsed rows r = r.free_cash_flow) ∧
    (rows.length < 2 * countNullFcf rows → fcfUsed rows r = fcf_calculated r) ∧
    (∀ o : ℚ, r.operating_cash_flow = some o →
      fcf_calculated r = some (o + r.capital_expenditure.getD 0)) ∧
    (r.operating_cash_flow = none → fcf_calculated r = none) := by
  refine ⟨?_, ?_, ?_, ?_⟩
  · intro hle
    simp [fcfUsed, use_calculated_fcf, not_lt.mpr hle]
  · intro hlt
    simp [fcfUsed, use_calculated_fcf, hlt]
  · intro o ho
    simp [fcf_calculated, ho]
  · intro ho
    simp [fcf_calculated, ho]

/-- Witness for C10: the stored column is used on fully populated data; the
recomputed column is used — also on a row that has a stored value — when
more than half the rows are null. -/
theorem fcf_column_choice_witness :
    fcfUsed sampleRows ⟨2018, some 10, some 5, some (-1), some 2⟩
      = (⟨2018, some 10, some 5, some (-1), some 2⟩ : AnnualRow).free_cash_flow ∧
    fcfUsed sampleNullRows ⟨2022, some 3, some 5, some (-1), some 2⟩
      = fcf_calculated ⟨2022, some 3, some 5, some (-1), some 2⟩ :=
  ⟨(fcf_column_choice sampleRows _).1 (by decide),
   (fcf_column_choice sampleNullRows _).2.1 (by decide)⟩

/-- Counterexample to C3 as stated: with `operating_cash_flow = 100` and
`capital_expenditure = -30`, the SEC fetcher's derived FCF is 130, not the
claimed 70 (it subtracts a positive-payment capital expenditure); and the
annual screener's recomputed FCF with an absent capital expenditure is 100,
not absent (the null is replaced by 0). -/
theorem fcf_sign_counterexample :
    calculated_free_cash_flow (some 100) (some (-30)) = some 130 ∧
    calculated_free_cash_flow (some 100) (some (-30)) ≠ some 70 ∧
    fcf_calculated ⟨2020, none, some 100, none, none⟩ = some 100 ∧
    fcf_calculated ⟨2020, none, some 100, none, none⟩ ≠ none := by
  refine ⟨?_, ?_, ?_, ?_⟩ <;>
    simp [calculated_free_cash_flow, fcf_calculated] <;> norm_num

/-- C3 amended: the SEC fetcher derives free cash flow as
`operating_cash_flow − capital_expenditure` (capital expenditure is
resolved as a positive payment amount) when both operands are present, and
leaves it absent when either is absent; the annual screener's recomputed
FCF is `operating_cash_flow + capital_expenditure` with an absent capital
expenditure replaced by 0, absent only when operating cash flow is
absent. -/
theorem fcf_derivation_amended :
    (∀ o c : ℚ, calculated_free_cash_flow (some o) (some c) = some (o - c)) ∧
    (∀ c, calculated_free_cash_flow none c = none) ∧
    (∀ o, calculated_free_cash_flow o none = none) ∧
    (∀ r : AnnualRow, ∀ o : ℚ, r.operating_cash_flow = some o →
      fcf_calculated r = some (o + r.capital_expenditure.getD 0)) ∧
    (∀ r : AnnualRow, r.operating_cash_flow = none → fcf_calculated r = none) := by
  refine ⟨fun o c => rfl, fun c => ?_, fun o => ?_, fun r o ho => ?_, fun r ho => ?_⟩
  · cases c <;> rfl
  · cases o <;> rfl
  · simp [fcf_calculated, ho]
  · simp [fcf_calculated, ho]

/-- Witness for C3 amended: the screener's recomputed FCF on concrete
rows. -/
theorem fcf_derivation_amended_witness :
    fcf_calculated ⟨2020, some 1, some 100, some (-30), none⟩
      = some (100 + (Option.getD (some (-30)) 0)) ∧
    fcf_calculated ⟨2020, some 1, none, some (-30), some 5⟩ = none :=
  ⟨fcf_derivation_amended.2.2.2.1 ⟨2020, some 1, some 100, some (-30), none⟩ 100 rfl,
   fcf_derivation_amended.2.2.2.2 ⟨2020, some 1, none, some (-30), some 5⟩ rfl⟩

/-- Counterexample to C4 as stated: under the top-level fetcher's selection
(`fetch_sec_annual_financials.py`), two same-year facts differing only in
form — an 8-K seen first and a 20-F seen second — select the 8-K: the 20-F
gets no form priority there, so the claim's both-orders guarantee fails. -/
theorem annual_form_counterexample :
    lookupYear (processEntriesRoot
      [⟨some "8-K", some "FY", some 2020, some 5, some 7⟩,
       ⟨some "20-F", some "FY", some 2020, some 5, some 7⟩]) 2020
      = some ⟨7, 5, some "8-K"⟩ ∧
    lookupYear (processEntriesRoot
      [⟨some "8-K", some "FY", some 2020, some 5, some 7⟩,
       ⟨some "20-F", some "FY", some 2020, some 5, some 7⟩]) 2020
      ≠ some ⟨7, 5, some "20-F"⟩ := by decide

/-- C4 amended: in the SEC_EDGAR_API fetcher a 10-K or 20-F fact beats any
non-annual-report form in both input orders; in the top-level fetcher this
holds only when the annual-report fact is a 10-K. -/
theorem annual_form_priority_amended
    (e1 e2 : FactEntry) (fy d1 d2 : Int) (v1 v2 : ℚ)
    (h1f : formTruthy e1.form = true) (h1p : e1.fp = some "FY")
    (h1y : e1.fy = some fy) (h1d : e1.filed = some d1) (h1v : e1.val = some v1)
    (h2f : formTruthy e2.form = true) (h2p : e2.fp = some "FY")
    (h2y : e2.fy = some fy) (h2d : e2.filed = some d2) (h2v : e2.val = some v2)
    (h1a : isAnnualReport e1.form = true) (h2a : isAnnualReport e2.form = false) :
    lookupYear (processEntries [e1, e2]) fy = some ⟨v1, d1, e1.form⟩ ∧
    lookupYear (processEntries [e2, e1]) fy = some ⟨v1, d1, e1.form⟩ ∧
    (e1.form = some "10-K" → e2.form ≠ some "10-K" →
      lookupYear (processEntriesRoot [e1, e2]) fy = some ⟨v1, d1, e1.form⟩ ∧
      lookupYear (processEntriesRoot [e2, e1]) fy = some ⟨v1, d1, e1.form⟩) := by
  have s1 : considerEntry [] e1 = [(fy, ⟨v1, d1, e1.form⟩)] := by
    simp [considerEntry, h1f, h1p, h1y, h1d, h1v, lookupYear, updateYear]
  have s2 : considerEntry [(fy, (⟨v1, d1, e1.form⟩ : Best))] e2
      = [(fy, ⟨v1, d1, e1.form⟩)] := by
    simp [considerEntry, h2f, h2p, h2y, h2d, h2v, lookupYear, h1a, h2a]
  have s3 : considerEntry [] e2 = [(fy, ⟨v2, d2, e2.form⟩)] := by
    simp [considerEntry, h2f, h2p, h2y, h2d, h2v, lookupYear, updateYear]
  have s4 : considerEntry [(fy, (⟨v2, d2, e2.form⟩ : Best))] e1
      = [(fy, ⟨v1, d1, e1.form⟩)] := by
    simp [considerEntry, h1f, h1p, h1y, h1d, h1v, lookupYear, updateYear, h1a, h2a]
  refine ⟨?_, ?_, ?_⟩
  · simp [processEntries, s1, s2, lookupYear]
  · simp [processEntries, s3, s4, lookupYear]
  · intro hk1 hk2
    have hb2 : (e2.form == some "10-K") = false := beq_eq_false_iff_ne.mpr hk2
    have r1 : considerEntryRoot [] e1 = [(fy, ⟨v1, d1, e1.form⟩)] := by
      simp [considerEntryRoot, h1f, h1p, h1y, h1d, h1v, lookupYear, updateYear]
    have r2 : considerEntryRoot [(fy, (⟨v1, d1, e1.form⟩ : Best))] e2
        = [(fy, ⟨v1, d1, e1.form⟩)] := by
      simp [considerEntryRoot, h2f, h2p, h2y, h2d, h2v, lookupYear, hk1, hb2]
    have r3 : considerEntryRoot [] e2 = [(fy, ⟨v2, d2, e2.form⟩)] := by
      simp [considerEntryRoot, h2f, h2p, h2y, h2d, h2v, lookupYear, updateYear]
    have hft : formTruthy (some "10-K") = true := rfl
    have r4 : considerEntryRoot [(fy, (⟨v2, d2, e2.form⟩ : Best))] e1
        = [(fy, ⟨v1, d1, e1.form⟩)] := by
      simp [considerEntryRoot, h1f, h1p, h1y, h1d, h1v, lookupYear, updateYear,
        hk1, hb2, hft]
    constructor
    · simp [processEntriesRoot, r1, r2, lookupYear]
    · simp [processEntriesRoot, r3, r4, lookupYear]

/-- Witness for C4 amended: a 10-K beats a later-filed 8-K for the same
fiscal year. -/
theorem annual_form_priority_witness :
    lookupYear (processEntries [sampleEntry "10-K" 5 11, sampleEntry "8-K" 6 22]) 2020
      = some ⟨11, 5, some "10-K"⟩ :=
  (annual_form_priority_amended (sampleEntry "10-K" 5 11) (sampleEntry "8-K" 6 22)
    2020 5 6 11 22 rfl rfl rfl rfl rfl rfl rfl rfl rfl rfl (by decide) (by decide)).1

/-- Counterexample to C5 as stated: two same-class facts with equal filed
dates — the selection keeps the entry seen first (value 11), not the entry
seen last (value 22); a later-seen entry replaces the current best only
with a strictly later filed date. -/
theorem filed_tiebreak_counterexample :
    lookupYear (processEntries
      [⟨some "10-K", some "FY", some 2020, some 5, some 11⟩,
       ⟨some "10-K", some "FY", some 2020, some 5, some 22⟩]) 2020
      = some ⟨11, 5, some "10-K"⟩ ∧
    lookupYear (processEntries
      [⟨some "10-K", some "FY", some 2020, some 5, some 11⟩,
       ⟨some "10-K", some "FY", some 2020, some 5, some 22⟩]) 2020
      ≠ some ⟨22, 5, some "10-K"⟩ := by decide

/-- C5 amended: within equal form-priority class, the entry with the
strictly later filed date is selected in both input orders; when the filed
dates are equal, the entry seen first in input order is kept. -/
theorem filed_tiebreak_amended
    (e1 e2 : FactEntry) (fy d1 d2 : Int) (v1 v2 : ℚ)
    (h1f : formTruthy e1.form = true) (h1p : e1.fp = some "FY")
    (h1y : e1.fy = some fy) (h1d : e1.filed = some d1) (h1v : e1.val = some v1)
    (h2f : formTruthy e2.form = true) (h2p : e2.fp = some "FY")
    (h2y : e2.fy = some fy) (h2d : e2.filed = some d2) (h2v : e2.val = some v2)
    (hclass : isAnnualReport e2.form = isAnnualReport e1.form) :
    (d1 < d2 →
      lookupYear (processEntries [e1, e2]) fy = some ⟨v2, d2, e2.form⟩ ∧
      lookupYear (processEntries [e2, e1]) fy = some ⟨v2, d2, e2.form⟩) ∧
    (d1 = d2 →
      lookupYear (processEntries [e1, e2]) fy = some ⟨v1, d1, e1.form⟩) := by
  have s1 : considerEntry [] e1 = [(fy, ⟨v1, d1, e1.form⟩)] := by
    simp [considerEntry, h1f, h1p, h1y, h1d, h1v, lookupYear, updateYear]
  have s3 : considerEntry [] e2 = [(fy, ⟨v2, d2, e2.form⟩)] := by
    simp [considerEntry, h2f, h2p, h2y, h2d, h2v, lookupYear, updateYear]
  constructor
  · intro hlt
    have s2 : considerEntry [(fy, (⟨v1, d1, e1.form⟩ : Best))] e2
        = [(fy, ⟨v2, d2, e2.form⟩)] := by
      simp [considerEntry, h2f, h2p, h2y, h2d, h2v, lookupYear, updateYear, hclass, hlt]
    have s4 : considerEntry [(fy, (⟨v2, d2, e2.form⟩ : Best))] e1
        = [(fy, ⟨v2, d2, e2.form⟩)] := by
      simp [considerEntry, h1f, h1p, h1y, h1d, h1v, lookupYear, hclass,
        not_lt.mpr hlt.le]
    constructor
    · simp [processEntries, s1, s2, lookupYear]
    · simp [processEntries, s3, s4, lookupYear]
  · intro heq
    subst heq
    have s2 : considerEntry [(fy, (⟨v1, d1, e1.form⟩ : Best))] e2
        = [(fy, ⟨v1, d1, e1.form⟩)] := by
      simp [considerEntry, h2f, h2p, h2y, h2d, h2v, lookupYear, hclass]
    simp [processEntries, s1, s2, lookupYear]

/-- Witness for C5 amended: the later-filed 10-K wins in both input
orders. -/
theorem filed_tiebreak_witness :
    lookupYear (processEntries [sampleEntry "10-K" 5 11, sampleEntry "10-K" 7 22]) 2020
      = some ⟨22, 7, some "10-K"⟩ ∧
    lookupYear (processEntries [sampleEntry "10-K" 7 22, sampleEntry "10-K" 5 11]) 2020
      = some ⟨22, 7, some "10-K"⟩ :=
  (filed_tiebreak_amended (sampleEntry "10-K" 5 11) (sampleEntry "10-K" 7 22)
    2020 5 7 11 22 rfl rfl rfl rfl rfl rfl rfl rfl rfl rfl rfl).1 (by decide)

/-- Counterexample to C6 as stated: under `find_edgar_py_fact` of the
EDGAR_Tool importer, with the first candidate tag present in the facts dict
but carrying only a 2019 fact and the second tag carrying the 2020 fact,
the 2020 value (7) is emitted from the second tag while the 2019 value (5)
is emitted from the first — resolution neither stops at the first present
tag nor keeps one (entity, concept) on a single tag across fiscal years. -/
theorem tag_priority_counterexample :
    find_edgar_py_fact
      [("us-gaap:OperatingIncomeLoss",
        [⟨some "2019-12-31", none, some 5⟩]),
       ("ifrs-full:ProfitLossFromOperatingActivities",
        [⟨some "2020-12-31", none, some 7⟩])]
      ["us-gaap:OperatingIncomeLoss", "ifrs-full:ProfitLossFromOperatingActivities"]
      "2020-12-31" = some 7 ∧
    find_edgar_py_fact
      [("us-gaap:OperatingIncomeLoss",
        [⟨some "2019-12-31", none, some 5⟩]),
       ("ifrs-full:ProfitLossFromOperatingActivities",
        [⟨some "2020-12-31", none, some 7⟩])]
      ["us-gaap:OperatingIncomeLoss", "ifrs-full:ProfitLossFromOperatingActivities"]
      "2019-12-31" = some 5 := by decide

/-- C6 amended: in the SEC_EDGAR_API fetcher, concept resolution stops at
the first candidate tag present anywhere in the entity's facts — every
earlier candidate is absent — and every emitted per-year value for the
concept originates from that single tag's entries; in the EDGAR_Tool
importer, the per-filing fact finder instead falls through to the next
candidate tag whenever a present tag yields no usable fact for the
requested period end date, so the same concept can be emitted from
different tags in different fiscal years. -/
theorem tag_priority_amended :
    (∀ (facts : List (String × List FactEntry)) (tags : List String)
       (t : String) (m : List (Int × Best)),
      resolveConcept facts tags = some (t, m) →
      ((∃ es, facts.find? (fun p => p.1 == t) = some (t, es) ∧ m = processEntries es ∧
        (∀ y b, lookupYear m y = some b →
          ∃ e ∈ es, e.val = some b.val ∧ e.fy = some y ∧
            e.filed = some b.filed_date ∧ e.form = b.form)) ∧
       ∃ pre post, tags = pre ++ t :: post ∧
         ∀ t2 ∈ pre, facts.find? (fun p => p.1 == t2) = none)) ∧
    (∀ (facts : List (String × List EdgarFact)) (tag : String) (rest : List String)
       (d : String) (fl : List EdgarFact),
      facts.find? (fun p => p.1 == tag) = some (tag, fl) →
      findFactInList fl d = none →
      facts.isEmpty = false → d.isEmpty = false →
      find_edgar_py_fact facts (tag :: rest) d = find_edgar_py_fact facts rest d) := by
  constructor
  · intro facts tags t m h
    unfold resolveConcept at h
    cases hft : findTag facts tags with
    | none => rw [hft] at h; cases h
    | some p =>
      obtain ⟨t0, es⟩ := p
      rw [hft] at h
      injection h with h
      injection h with h1 h2
      subst h1
      subst h2
      obtain ⟨hfind, pre, post, hsplit, hnone⟩ := findTag_spec facts tags _ _ hft
      refine ⟨⟨es, hfind, rfl, ?_⟩, pre, post, hsplit, hnone⟩
      intro y b hb
      rcases lookup_foldl_origin es [] y b hb with h0 | h1
      · simp [lookupYear] at h0
      · exact h1
  · intro facts tag rest d fl hfind hnone hfe hde
    cases rest with
    | nil =>
      simp [find_edgar_py_fact, hfe, hde, findFactTags, hfind, hnone]
    | cons t2 rest2 =>
      simp [find_edgar_py_fact, hfe, hde, findFactTags, hfind, hnone]

/-- Witness for C6 amended: the SEC_EDGAR_API resolution selects the second
candidate with the first provably absent; the EDGAR_Tool finder, with the
first tag present but dateless for 2020, reduces to the remaining tags. -/
theorem tag_priority_amended_witness :
    (∃ pre post, ["ifrs-full:Revenue", "us-gaap:Revenues"]
        = pre ++ "us-gaap:Revenues" :: post ∧
      ∀ t2 ∈ pre,
        ([("us-gaap:Revenues", [sampleEntry "10-K" 5 11])].find?
          (fun p => p.1 == t2)) = none) ∧
    find_edgar_py_fact
        [("us-gaap:OperatingIncomeLoss", [⟨some "2019-12-31", none, some 5⟩])]
        ["us-gaap:OperatingIncomeLoss", "ifrs-full:ProfitLossFromOperatingActivities"]
        "2020-12-31"
      = find_edgar_py_fact
          [("us-gaap:OperatingIncomeLoss", [⟨some "2019-12-31", none, some 5⟩])]
          ["ifrs-full:ProfitLossFromOperatingActivities"] "2020-12-31" :=
  ⟨(tag_priority_amended.1 [("us-gaap:Revenues", [sampleEntry "10-K" 5 11])]
      ["ifrs-full:Revenue", "us-gaap:Revenues"] "us-gaap:Revenues"
      (processEntries [sampleEntry "10-K" 5 11]) rfl).2,
   tag_priority_amended.2
     [("us-gaap:OperatingIncomeLoss", [⟨some "2019-12-31", none, some 5⟩])]
     "us-gaap:OperatingIncomeLoss" ["ifrs-full:ProfitLossFromOperatingActivities"]
     "2020-12-31" [⟨some "2019-12-31", none, some 5⟩]
     (by decide) (by decide) rfl rfl⟩

/-- Counterexample to C7 as stated: with no direct EBITDA row, an
operating-income series whose 2020 value is NaN and a D&A series with value
50, the computed EBITDA for 2020 is 50 — the absent operand was defaulted
to 0 by `fillna(0)` — instead of being left unset as the claim requires. -/
theorem ebitda_zero_default_counterexample :
    ebitdaAt ⟨none, some ⟨[2020], fun _ => none⟩, some ⟨[2020], fun _ => some 50⟩⟩ 2020
      = some 50 ∧
    ebitdaAt ⟨none, some ⟨[2020], fun _ => none⟩, some ⟨[2020], fun _ => some 50⟩⟩ 2020
      ≠ none := by
  constructor
  · simp [ebitdaAt, extract_ebitda, fillna0, seriesAt]
  · simp [ebitdaAt, extract_ebitda, fillna0, seriesAt]

/-- C7 amended: derived EBITDA equals the directly resolved series when one
is present; otherwise, when both an operating-income and a D&A row label
exist, each year in both series' indexes gets
`op_income.fillna(0) + dep_amort.fillna(0)` — in particular the sum of the
two values when both are known; when either row label is missing entirely,
EBITDA is left unset, with no further fallback chain. -/
theorem ebitda_fallback_amended :
    (∀ e : YSeries, ∀ op da : Option YSeries,
      extract_ebitda ⟨some e, op, da⟩ = some e) ∧
    (∀ op da : YSeries, ∀ y : Int, ∀ a b : ℚ,
      op.val y = some a → da.val y = some b →
      op.idx.contains y = true → da.idx.contains y = true →
      ebitdaAt ⟨none, some op, some da⟩ y = some (a + b)) ∧
    (∀ op da : YSeries, ∀ y : Int,
      op.idx.contains y = true → da.idx.contains y = true →
      ebitdaAt ⟨none, some op, some da⟩ y
        = some ((op.val y).getD 0 + (da.val y).getD 0)) ∧
    (∀ op : Option YSeries, ∀ y : Int, ebitdaAt ⟨none, op, none⟩ y = none) ∧
    (∀ da : YSeries, ∀ y : Int, ebitdaAt ⟨none, none, some da⟩ y = none) := by
  have key : ∀ op da : YSeries, ∀ y : Int,
      op.idx.contains y = true → da.idx.contains y = true →
      ebitdaAt ⟨none, some op, some da⟩ y
        = some ((op.val y).getD 0 + (da.val y).getD 0) := by
    intro op da y hop hda
    have hmem : y ∈ op.idx.filter (fun z => da.idx.contains z) := by
      rw [List.mem_filter]
      exact ⟨by simpa using hop, hda⟩
    have hne : (op.idx.filter (fun z => da.idx.contains z)).isEmpty = false := by
      cases hE : (op.idx.filter (fun z => da.idx.contains z)).isEmpty
      · rfl
      · exact absurd (List.isEmpty_iff.mp hE ▸ hmem) (List.not_mem_nil y)
    have hcont : (op.idx.filter (fun z => da.idx.contains z)).contains y = true :=
      List.elem_eq_true_of_mem hmem
    simp only [ebitdaAt, extract_ebitda, hne, Bool.false_eq_true, if_false,
      Option.some_bind, seriesAt, fillna0]
    rw [if_pos hcont]
  refine ⟨fun e op da => rfl, ?_, key, ?_, fun da y => rfl⟩
  · intro op da y a b ha hb hop hda
    rw [key op da y hop hda, ha, hb]
    rfl
  · intro op y
    cases op <;> rfl

/-- Witness for C7 amended: both operands known gives their sum; a missing
D&A row label leaves EBITDA unset. -/
theorem ebitda_fallback_amended_witness :
    ebitdaAt ⟨none, some ⟨[2020], fun _ => some 7⟩, some ⟨[2020], fun _ => some 50⟩⟩ 2020
      = some (7 + 50) ∧
    ebitdaAt ⟨none, some ⟨[2020], fun _ => some 7⟩, none⟩ 2020 = none :=
  ⟨ebitda_fallback_amended.2.1 ⟨[2020], fun _ => some 7⟩ ⟨[2020], fun _ => some 50⟩
      2020 7 50 rfl rfl (by decide) (by decide),
   ebitda_fallback_amended.2.2.2.1 (some ⟨[2020], fun _ => some 7⟩) 2020⟩

/-- Counterexample to C8 as stated: a ticker with only three qualifying
years is absent from the list `screen_stocks` returns — a silent omission
from that output, not an explicit insufficient-data verdict (only the
Gemini per-ticker summary produces one). -/
theorem insufficient_data_counterexample :
    screen_stocks powZero
      [("X", [⟨2020, some 1, some 1, some (-1), some 1⟩,
              ⟨2021, some 2, some 1, some (-1), some 1⟩,
              ⟨2022, some 3, some 1, some (-1), some 1⟩])] = [] := by decide

/-- C8 amended: in the Gemini per-ticker summary, fewer than N qualifying
years yields an explicit summary whose error message is the
insufficient-data message, with no pass/fail counts, no growth fields and
the error flag still set — not an exception; the annual-data screener
instead omits such a ticker from its returned pass list. -/
theorem insufficient_data_amended (rpow : ℚ → ℚ → ℚ) (combined : List (ℚ × ℚ))
    (h : combined.length < YEARS_HISTORY) :
    (calcSummaryFromCombined rpow combined).last_error_message
        = some (insufficientMessage combined.length) ∧
    (calcSummaryFromCombined rpow combined).positive_ebitda_years_count = none ∧
    (calcSummaryFromCombined rpow combined).positive_fcf_years_count = none ∧
    (calcSummaryFromCombined rpow combined).is_ebitda_turnaround = none ∧
    (calcSummaryFromCombined rpow combined).ebitda_cagr_percent = none ∧
    (calcSummaryFromCombined rpow combined).data_fetch_error = true ∧
    (∀ rows : List AnnualRow, (validWindow rows).length < MIN_DATA_YEARS_REQUIRED →
      ∀ t : String, screen_stocks rpow [(t, rows)] = []) := by
  refine ⟨?_, ?_, ?_, ?_, ?_, ?_, ?_⟩
  · simp [calcSummaryFromCombined, if_pos h, initialSummary]
  · simp [calcSummaryFromCombined, if_pos h, initialSummary]
  · simp [calcSummaryFromCombined, if_pos h, initialSummary]
  · simp [calcSummaryFromCombined, if_pos h, initialSummary]
  · simp [calcSummaryFromCombined, if_pos h, initialSummary]
  · simp [calcSummaryFromCombined, if_pos h, initialSummary]
  · intro rows hr t
    simp [screen_stocks, screenTicker, if_pos hr]

/-- Witness for C8 amended: one qualifying year yields the explicit
insufficient-data summary; an empty group yields an empty pass list. -/
theorem insufficient_data_amended_witness :
    (calcSummaryFromCombined powZero [(1, 1)]).last_error_message
        = some (insufficientMessage 1) ∧
    screen_stocks powZero [("X", [])] = [] :=
  ⟨(insufficient_data_amended powZero [(1, 1)] (by decide)).1,
   (insufficient_data_amended powZero [(1, 1)] (by decide)).2.2.2.2.2.2 [] (by decide) "X"⟩

/-- C9: a fact whose numeric value fails to parse is discarded from
consideration only — processing it leaves the per-year map of either
fetcher variant unchanged — and every stored per-year value originates
from an entry whose value parsed successfully (never null or fabricated
zero). -/
theorem parse_failure_discarded (m : List (Int × Best)) (e : FactEntry)
    (entries : List FactEntry) (y : Int) (b : Best) :
    (e.val = none → considerEntry m e = m ∧ considerEntryRoot m e = m) ∧
    (lookupYear (processEntries entries) y = some b →
      ∃ e2 ∈ entries, e2.val = some b.val) ∧
    (lookupYear (processEntriesRoot entries) y = some b →
      ∃ e2 ∈ entries, e2.val = some b.val) := by
  refine ⟨fun hval => considerEntry_parse_failure m e hval, fun h => ?_, fun h => ?_⟩
  · rcases lookup_foldl_origin entries [] y b h with h0 | ⟨e2, he2, hp⟩
    · simp [lookupYear] at h0
    · exact ⟨e2, he2, hp.1⟩
  · rcases lookup_foldl_origin_root entries [] y b h with h0 | ⟨e2, he2, hp⟩
    · simp [lookupYear] at h0
    · exact ⟨e2, he2, hp.1⟩

/-- Witness for C9: an unparseable better candidate leaves the existing
best entry of another year untouched in both variants. -/
theorem parse_failure_discarded_witness :
    considerEntry [(2019, ⟨3, 4, some "10-K"⟩)]
        ⟨some "10-K", some "FY", some 2020, some 5, none⟩
      = [(2019, ⟨3, 4, some "10-K"⟩)] ∧
    considerEntryRoot [(2019, ⟨3, 4, some "10-K"⟩)]
        ⟨some "10-K", some "FY", some 2020, some 5, none⟩
      = [(2019, ⟨3, 4, some "10-K"⟩)] :=
  (parse_failure_discarded [(2019, ⟨3, 4, some "10-K"⟩)]
    ⟨some "10-K", some "FY", some 2020, some 5, none⟩ [] 0 ⟨0, 0, none⟩).1 rfl

end StockProgram
